import Mathlib

/-!
Verification of the ImportIQ scraping/validation core against its
natural-language specification.

The development shallowly embeds three Python modules:

* `src/data_pipeline/validator.py`  — `DataValidator` and `ValidationResult`
* `src/scrapers/base_scraper.py`    — `BaseScraper.make_request`,
  `ProxyManager`, `RateLimiter`
* `src/utils/scheduler.py`          — `ImportIQScheduler._run_scraper_job`
  and its statistics handling

Python values stored in records are modelled by the inductive `Value`
(strings, ints, floats-as-rationals, booleans, `None`).  Python `dict`s
are association lists with the usual first-occurrence lookup.  Machine
floats are modelled by `ℚ`; `datetime.now().year` is passed explicitly as
a `cy` (current year) parameter; exceptions are modelled with
`Option`/`Except`.
-/

namespace ImportIQ

/-- Model of a Python scalar value as stored in a scraped record. -/
inductive Value where
  | str (s : String)
  | int (n : Int)
  | rat (q : ℚ)
  | bool (b : Bool)
  | vnone
deriving DecidableEq, Repr

/-- Python truthiness (`bool(v)`) for the modelled scalar values. -/
def truthy : Value → Bool
  | .str s => !(s == "")
  | .int n => !(n == 0)
  | .rat q => !(q == 0)
  | .bool b => b
  | .vnone => false

/-- Python `str(v)` for the modelled scalar values. -/
def pyStr : Value → String
  | .str s => s
  | .int n => toString n
  | .rat q => toString q
  | .bool b => if b then "True" else "False"
  | .vnone => "None"

/-- Digits of a numeral string folded into a natural number. -/
def digitsToNat (l : List Char) : Nat :=
  l.foldl (fun acc c => acc * 10 + (c.toNat - '0'.toNat)) 0

/-- A non-empty all-digit character list. -/
def allDigits (l : List Char) : Bool :=
  !l.isEmpty && l.all Char.isDigit

/-- Parse a plain (unsigned, dot-free) numeral. -/
def parseNatDigits (s : String) : Option Nat :=
  let l := s.toList
  if allDigits l then some (digitsToNat l) else Option.none

/-- Parse an unsigned decimal numeral, optionally with a fractional part
(`"12"`, `"12.5"`, `"12."`, `".5"`), as Python `float` accepts. -/
def parseUnsignedRat (s : String) : Option ℚ :=
  match s.splitOn "." with
  | [a] => (parseNatDigits a).map (fun n => (n : ℚ))
  | [a, b] =>
      let la := a.toList
      let lb := b.toList
      if (la.all Char.isDigit && lb.all Char.isDigit) && !(la.isEmpty && lb.isEmpty) then
        some ((digitsToNat la : ℚ) + (digitsToNat lb : ℚ) / ((10 : ℚ) ^ lb.length))
      else Option.none
  | _ => Option.none

/-- Python `float(s)` on a string: strip whitespace, optional sign, decimal
numeral (exponent/`inf`/`nan` forms are out of scope for this data). -/
def parseFloatStr (s : String) : Option ℚ :=
  let t := s.trim
  match t.toList with
  | '+' :: rest => parseUnsignedRat (String.mk rest)
  | '-' :: rest => (parseUnsignedRat (String.mk rest)).map Neg.neg
  | _ => parseUnsignedRat t

/-- Python `int(s)` on a string: strip whitespace, optional sign, digits
only (a decimal point raises `ValueError`). -/
def parseIntStr (s : String) : Option Int :=
  let t := s.trim
  match t.toList with
  | '+' :: rest => (parseNatDigits (String.mk rest)).map Int.ofNat
  | '-' :: rest => (parseNatDigits (String.mk rest)).map (fun n => -(Int.ofNat n))
  | _ => (parseNatDigits t).map Int.ofNat

/-- Truncation toward zero, as Python `int(float)`. -/
def ratTrunc (q : ℚ) : Int :=
  if q < 0 then -(Int.floor (-q)) else Int.floor q

/-- Python `float(v)`: `none` models the raised
`ValueError`/`TypeError` that the validator catches. -/
def pyFloat : Value → Option ℚ
  | .rat q => some q
  | .int n => some (n : ℚ)
  | .bool b => some (if b then 1 else 0)
  | .str s => parseFloatStr s
  | .vnone => Option.none

/-- Python `int(v)`: `none` models the raised
`ValueError`/`TypeError` that the validator catches. -/
def pyInt : Value → Option Int
  | .int n => some n
  | .bool b => some (if b then 1 else 0)
  | .rat q => some (ratTrunc q)
  | .str s => parseIntStr s
  | .vnone => Option.none

/-- A raw record: a Python `dict` modelled as an association list with
distinct keys and first-occurrence lookup. -/
def Record : Type := List (String × Value)

instance : DecidableEq Record := by
  unfold Record
  infer_instance

instance : Inhabited Record := ⟨([] : List (String × Value))⟩

/-- `key in data` / `data[key]` lookup on a record. -/
def Record.lookup : Record → String → Option Value
  | [], _ => Option.none
  | (k', v) :: rest, k => if k' = k then some v else Record.lookup rest k

/-- `data[key] = v` on a record: replace the binding if the key exists,
otherwise append it. -/
def Record.set : Record → String → Value → Record
  | [], k, v => [(k, v)]
  | (k', v') :: rest, k, v =>
      if k' = k then (k, v) :: rest else (k', v') :: Record.set rest k v

/-- `len(data)` for a record. -/
def Record.size (d : Record) : Nat := List.length d

/-- The distinct error messages `DataValidator` can append, one constructor
per `errors.append(...)` site in `src/data_pipeline/validator.py`; payloads
carry the interpolated values of the corresponding f-string. -/
inductive VErr where
  | missingField (f : String)
  | invalidYear (y : Value)
  | invalidYearFormat (y : Value)
  | invalidVin (v : String)
  | priceNegative
  | invalidPriceFormat (p : Value)
  | dutyRateNegative
  | invalidDutyRateFormat (v : Value)
  | invalidEffectiveDate (v : Value)
  | twentyFiveYearRuleNotBool
  | durationNegative
  | invalidDurationFormat (v : Value)
  | emptyProcessStep
  | validationError (msg : String)
deriving DecidableEq, Repr

/-- The distinct warning messages `DataValidator` can append, one
constructor per `warnings.append(...)` site in the source. -/
inductive VWarn where
  | makeCorrected (m c : String)
  | unknownMake (m : String)
  | modelMissing
  | veryOldYear (y : Value)
  | unusuallyHighPrice (p : ℚ)
  | countryCorrected (c c' : String)
  | unknownCountry (c : String)
  | unknownDestCountry (c : String)
  | unusuallyHighDutyRate (r : ℚ)
  | invalidHtsFormat (s : String)
  | unknownVehicleCategory (v : Value)
  | unknownAuthority (a : String)
  | unknownEligibilityStatus (s : String)
  | unusuallyLongDuration (n : Int)
deriving DecidableEq, Repr

/-- `ValidationResult` dataclass from `src/data_pipeline/validator.py`. -/
structure ValidationResult where
  is_valid : Bool
  errors : List VErr
  warnings : List VWarn
  quality_score : ℚ
  validated_data : Record
deriving DecidableEq

/-- `DataValidator.valid_makes` (a Python `set`, modelled in source order). -/
def valid_makes : List String :=
  ["Toyota", "Honda", "Nissan", "Subaru", "Mitsubishi", "Mazda", "Lexus", "Acura", "Infiniti",
   "BMW", "Mercedes-Benz", "Audi", "Volkswagen", "Porsche", "Volvo", "Jaguar", "Land Rover",
   "Ford", "Chevrolet", "Dodge", "Chrysler", "Jeep", "Cadillac", "Buick", "GMC", "Lincoln",
   "Ferrari", "Lamborghini", "McLaren", "Aston Martin", "Bentley", "Rolls-Royce", "Maserati",
   "Hyundai", "Kia", "Genesis", "Tesla", "Polestar", "Lucid", "Rivian"]

/-- `DataValidator.valid_countries`. -/
def valid_countries : List String :=
  ["United States", "Canada", "United Kingdom", "Australia", "New Zealand",
   "Japan", "Germany", "France", "Italy", "Spain", "Netherlands", "Belgium",
   "European Union", "Sweden", "Norway", "Denmark", "Finland", "Switzerland"]

/-- `DataValidator.regulatory_authorities`. -/
def regulatory_authorities : List String :=
  ["NHTSA", "EPA", "DOT", "Transport Canada", "DVLA", "Australian Border Force",
   "Transport for NSW", "VicRoads", "European Commission", "TÃœV", "MOT"]

/-- `make_mappings` alias table inside `_find_closest_make`. -/
def make_mappings : List (String × String) :=
  [("toyota", "Toyota"), ("honda", "Honda"), ("nissan", "Nissan"), ("bmw", "BMW"),
   ("mercedes", "Mercedes-Benz"), ("mercedes-benz", "Mercedes-Benz"), ("audi", "Audi"),
   ("volkswagen", "Volkswagen"), ("vw", "Volkswagen"), ("porsche", "Porsche"),
   ("ford", "Ford"), ("chevrolet", "Chevrolet"), ("chevy", "Chevrolet"),
   ("subaru", "Subaru"), ("mitsubishi", "Mitsubishi"), ("mazda", "Mazda")]

/-- `country_mappings` alias table inside `_find_closest_country`. -/
def country_mappings : List (String × String) :=
  [("usa", "United States"), ("us", "United States"), ("america", "United States"),
   ("uk", "United Kingdom"), ("britain", "United Kingdom"), ("england", "United Kingdom"),
   ("australia", "Australia"), ("canada", "Canada"), ("japan", "Japan"),
   ("germany", "Germany"), ("france", "France"), ("italy", "Italy")]

/-- Python `needle in hay` substring membership. -/
def containsSub (needle hay : String) : Bool :=
  decide (List.IsInfix needle.toList hay.toList)

/-- `DataValidator._find_closest_make`: a first substring match against the
known makes, falling back to the alias table. -/
def find_closest_make (m : String) : Option String :=
  let ml := m.toLower
  match valid_makes.find? (fun vm => containsSub ml vm.toLower || containsSub vm.toLower ml) with
  | some vm => some vm
  | Option.none => make_mappings.lookup ml

/-- `DataValidator._find_closest_country`. -/
def find_closest_country (c : String) : Option String :=
  let cl := c.toLower
  match valid_countries.find? (fun vc => containsSub cl vc.toLower || containsSub vc.toLower cl) with
  | some vc => some vc
  | Option.none => country_mappings.lookup cl

/-- `DataValidator._validate_vin`: length 17, no I/O/Q, alphanumeric set
`[A-HJ-NPR-Z0-9]`. -/
def validate_vin (vin : String) : Bool :=
  if vin == "" || vin.length != 17 then
    false
  else if vin.toUpper.toList.any (fun c => c == 'I' || c == 'O' || c == 'Q') then
    false
  else
    vin.toUpper.toList.all (fun c =>
      decide (('A' ≤ c ∧ c ≤ 'H') ∨ ('J' ≤ c ∧ c ≤ 'N') ∨ c = 'P' ∨
              ('R' ≤ c ∧ c ≤ 'Z') ∨ ('0' ≤ c ∧ c ≤ '9')))

/-- `DataValidator._validate_hts_code`: regex `^\d\x7b4\x7d(\.\d\x7b2\x7d)\x7b0,3\x7d$`. -/
def validate_hts_code (hts : String) : Bool :=
  match hts.splitOn "." with
  | [] => false
  | a :: rest =>
      (a.toList.length == 4 && a.toList.all Char.isDigit) &&
      (rest.length ≤ 3 && rest.all (fun b => b.toList.length == 2 && b.toList.all Char.isDigit))

/-- Gregorian leap-year test, as `datetime` uses. -/
def isLeapYear (y : Nat) : Bool :=
  (y % 4 == 0 && y % 100 != 0) || y % 400 == 0

/-- Days in a month for `datetime.strptime` calendar validation. -/
def daysInMonth (y m : Nat) : Nat :=
  if m = 2 then (if isLeapYear y then 29 else 28)
  else if m = 4 ∨ m = 6 ∨ m = 9 ∨ m = 11 then 30
  else 31

/-- A numeral field of `strptime` with a width bound of `w` digits. -/
def numField (s : String) (w : Nat) : Option Nat :=
  let l := s.toList
  if allDigits l && l.length ≤ w then some (digitsToNat l) else Option.none

/-- `strptime(s, fmt)` success for a `Y?M?D` triple of numeral fields with a
calendar-validity check. -/
def validYMD (ys ms ds : String) : Bool :=
  match numField ys 4, numField ms 2, numField ds 2 with
  | some y, some m, some d =>
      1 ≤ m && m ≤ 12 && 1 ≤ d && d ≤ daysInMonth y m
  | _, _, _ => false

/-- `strptime(s, fmt)` success for an `H:M:S` time-of-day triple. -/
def validHMS (t : String) : Bool :=
  match t.splitOn ":" with
  | [hs, ms, ss] =>
      match numField hs 2, numField ms 2, numField ss 2 with
      | some h, some m, some s => h ≤ 23 && m ≤ 59 && s ≤ 61
      | _, _, _ => false
  | _ => false

/-- `DataValidator._validate_date`: the fixed ordered format list
`['%Y-%m-%d', '%m/%d/%Y', '%d/%m/%Y', '%Y-%m-%d %H:%M:%S']`; parseable
under any one of them. -/
def validate_date (s : String) : Bool :=
  (match s.splitOn "-" with
   | [ys, ms, ds] => validYMD ys ms ds
   | _ => false) ||
  (match s.splitOn "/" with
   | [ms, ds, ys] => validYMD ys ms ds
   | _ => false) ||
  (match s.splitOn "/" with
   | [ds, ms, ys] => validYMD ys ms ds
   | _ => false) ||
  (match s.splitOn " " with
   | [dpart, tpart] =>
       (match dpart.splitOn "-" with
        | [ys, ms, ds] => validYMD ys ms ds
        | _ => false) && validHMS tpart
   | _ => false)

/-- Required-field loop shared by the vehicle / import-eligibility /
timeline validators: `if field not in data or not data[field]`. -/
def requiredErrs (fields : List String) (d : Record) : List VErr :=
  fields.filterMap (fun f =>
    match d.lookup f with
    | Option.none => some (VErr.missingField f)
    | some v => if truthy v then Option.none else some (VErr.missingField f))

/-- Required-field loop of the duty-rate validator:
`if field not in data or data[field] is None`. -/
def requiredErrsIsNone (fields : List String) (d : Record) : List VErr :=
  fields.filterMap (fun f =>
    match d.lookup f with
    | Option.none => some (VErr.missingField f)
    | some v => if v = Value.vnone then some (VErr.missingField f) else Option.none)

/-- Vehicle make check (warnings): exact known make, else closest-match
correction warning, else unknown-make warning. -/
def makeWarns (d : Record) : List VWarn :=
  match d.lookup "make" with
  | Option.none => []
  | some v =>
      let m := (pyStr v).trim
      if m ∈ valid_makes then []
      else
        match find_closest_make m with
        | some c => [VWarn.makeCorrected m c]
        | Option.none => [VWarn.unknownMake m]

/-- Vehicle make check (rewrite of `validated_data['make']`). -/
def makeUpd (d vd : Record) : Record :=
  match d.lookup "make" with
  | Option.none => vd
  | some v =>
      let m := (pyStr v).trim
      if m ∈ valid_makes then vd
      else
        match find_closest_make m with
        | some c => vd.set "make" (Value.str c)
        | Option.none => vd

/-- Vehicle model check: warning when missing/unknown. -/
def modelWarns (d : Record) : List VWarn :=
  match d.lookup "model" with
  | Option.none => []
  | some v =>
      let m := (pyStr v).trim
      if m == "" || m.toLower == "unknown" then [VWarn.modelMissing] else []

/-- Vehicle year check (errors): out of `[1900, current_year + 2]` or an
unparsable value; skipped when `year` is absent or falsy. -/
def yearErrs (cy : Nat) (d : Record) : List VErr :=
  match d.lookup "year" with
  | Option.none => []
  | some y =>
      if truthy y then
        match pyInt y with
        | Option.none => [VErr.invalidYearFormat y]
        | some n => if n < 1900 ∨ n > (cy : Int) + 2 then [VErr.invalidYear y] else []
      else []

/-- Vehicle year check (warnings): in-range but before 1980. -/
def yearWarns (cy : Nat) (d : Record) : List VWarn :=
  match d.lookup "year" with
  | Option.none => []
  | some y =>
      if truthy y then
        match pyInt y with
        | Option.none => []
        | some n =>
            if n < 1900 ∨ n > (cy : Int) + 2 then []
            else if n < 1980 then [VWarn.veryOldYear y] else []
      else []

/-- Vehicle year check (rewrite): `validated_data['year'] = year_int` runs
whenever `int(year)` parses, even when the range check erred. -/
def yearUpd (d vd : Record) : Record :=
  match d.lookup "year" with
  | Option.none => vd
  | some y =>
      if truthy y then
        match pyInt y with
        | Option.none => vd
        | some n => vd.set "year" (Value.int n)
      else vd

/-- Vehicle VIN check (errors): skipped entirely when `vin` is absent or
falsy (`if 'vin' in data and data['vin']`). -/
def vinErrs (d : Record) : List VErr :=
  match d.lookup "vin" with
  | Option.none => []
  | some v =>
      if truthy v then
        let s := ((pyStr v).toUpper).trim
        if validate_vin s then [] else [VErr.invalidVin s]
      else []

/-- Vehicle VIN check (rewrite): a valid VIN is stored uppercased. -/
def vinUpd (d vd : Record) : Record :=
  match d.lookup "vin" with
  | Option.none => vd
  | some v =>
      if truthy v then
        let s := ((pyStr v).toUpper).trim
        if validate_vin s then vd.set "vin" (Value.str s) else vd
      else vd

/-- Vehicle price check (errors): skipped entirely when `price` is absent
or falsy (`if 'price' in data and data['price']`). -/
def priceErrs (d : Record) : List VErr :=
  match d.lookup "price" with
  | Option.none => []
  | some v =>
      if truthy v then
        match pyFloat v with
        | Option.none => [VErr.invalidPriceFormat v]
        | some p => if p < 0 then [VErr.priceNegative] else []
      else []

/-- Vehicle price check (warnings): soft ceiling at 10,000,000. -/
def priceWarns (d : Record) : List VWarn :=
  match d.lookup "price" with
  | Option.none => []
  | some v =>
      if truthy v then
        match pyFloat v with
        | Option.none => []
        | some p =>
            if p < 0 then [] else if p > 10000000 then [VWarn.unusuallyHighPrice p] else []
      else []

/-- Vehicle price check (rewrite): `validated_data['price'] = price` runs
whenever `float(price)` parses. -/
def priceUpd (d vd : Record) : Record :=
  match d.lookup "price" with
  | Option.none => vd
  | some v =>
      if truthy v then
        match pyFloat v with
        | Option.none => vd
        | some p => vd.set "price" (Value.rat p)
      else vd

/-- `DataValidator._calculate_quality_score`: 0 with any error; otherwise
`1 - 0.1 * warnings`, scaled by the completeness ratio over all keys of
the input record, clamped to `[0, 1]`. -/
def calculate_quality_score (d : Record) (errors : List VErr) (warnings : List VWarn) : ℚ :=
  if !errors.isEmpty then 0
  else
    let score : ℚ := 1 - (warnings.length : ℚ) * (1 / 10)
    let total := d.size
    let emptyFields := (List.filter (fun kv => !(truthy kv.2)) d).length
    let score := if 0 < total then score * (((total : ℚ) - (emptyFields : ℚ)) / (total : ℚ)) else score
    max 0 (min 1 score)

/-- The shared `ValidationResult(...)` construction ending every
`validate_*` method: `is_valid = len(errors) == 0` together with the
quality score computed from the original record. -/
def mkResult (d : Record) (errors : List VErr) (warnings : List VWarn) (vd : Record) :
    ValidationResult :=
  { is_valid := errors.isEmpty
    errors := errors
    warnings := warnings
    quality_score := calculate_quality_score d errors warnings
    validated_data := vd }

/-- `DataValidator.validate_vehicle_data`; `cy` stands for
`datetime.now().year`. -/
def validate_vehicle_data (cy : Nat) (d : Record) : ValidationResult :=
  mkResult d
    (requiredErrs ["make", "model"] d ++ yearErrs cy d ++ vinErrs d ++ priceErrs d)
    (makeWarns d ++ modelWarns d ++ yearWarns cy d ++ priceWarns d)
    (priceUpd d (vinUpd d (yearUpd d (makeUpd d d))))

/-- Duty-rate country check (warnings). -/
def countryWarns (d : Record) : List VWarn :=
  match d.lookup "country" with
  | Option.none => []
  | some v =>
      let c := (pyStr v).trim
      if c ∈ valid_countries then []
      else
        match find_closest_country c with
        | some m => [VWarn.countryCorrected c m]
        | Option.none => [VWarn.unknownCountry c]

/-- Duty-rate country check (rewrite). -/
def countryUpd (d vd : Record) : Record :=
  match d.lookup "country" with
  | Option.none => vd
  | some v =>
      let c := (pyStr v).trim
      if c ∈ valid_countries then vd
      else
        match find_closest_country c with
        | some m => vd.set "country" (Value.str m)
        | Option.none => vd

/-- Duty-rate percentage check (errors); note the source guards only on
key presence (`if 'duty_rate_percent' in data:`), with no falsy skip. -/
def dutyRateErrs (d : Record) : List VErr :=
  match d.lookup "duty_rate_percent" with
  | Option.none => []
  | some v =>
      match pyFloat v with
      | Option.none => [VErr.invalidDutyRateFormat v]
      | some r => if r < 0 then [VErr.dutyRateNegative] else []

/-- Duty-rate percentage check (warnings): soft ceiling at 100. -/
def dutyRateWarns (d : Record) : List VWarn :=
  match d.lookup "duty_rate_percent" with
  | Option.none => []
  | some v =>
      match pyFloat v with
      | Option.none => []
      | some r => if r < 0 then [] else if r > 100 then [VWarn.unusuallyHighDutyRate r] else []

/-- Duty-rate percentage check (rewrite). -/
def dutyRateUpd (d vd : Record) : Record :=
  match d.lookup "duty_rate_percent" with
  | Option.none => vd
  | some v =>
      match pyFloat v with
      | Option.none => vd
      | some r => vd.set "duty_rate_percent" (Value.rat r)

/-- HTS code check (warnings only); skipped when absent or falsy. -/
def htsWarns (d : Record) : List VWarn :=
  match d.lookup "hts_code" with
  | Option.none => []
  | some v =>
      if truthy v then
        let s := (pyStr v).trim
        if validate_hts_code s then [] else [VWarn.invalidHtsFormat s]
      else []

/-- Vehicle category check (warnings only); compares the raw value against
the literal string list, so any non-string value is "unknown". -/
def categoryWarns (d : Record) : List VWarn :=
  match d.lookup "vehicle_category" with
  | Option.none => []
  | some v =>
      match v with
      | Value.str s =>
          if s ∈ ["passenger_car", "truck", "motorcycle", "special_vehicle", "unknown"] then []
          else [VWarn.unknownVehicleCategory v]
      | _ => [VWarn.unknownVehicleCategory v]

/-- Effective-date check (errors); skipped when absent or falsy. -/
def dateErrs (d : Record) : List VErr :=
  match d.lookup "effective_date" with
  | Option.none => []
  | some v =>
      if truthy v then
        if validate_date (pyStr v) then [] else [VErr.invalidEffectiveDate v]
      else []

/-- `DataValidator.validate_duty_rate_data`. -/
def validate_duty_rate_data (d : Record) : ValidationResult :=
  mkResult d
    (requiredErrsIsNone ["country", "duty_rate_percent"] d ++ dutyRateErrs d ++ dateErrs d)
    (countryWarns d ++ dutyRateWarns d ++ htsWarns d ++ categoryWarns d)
    (dutyRateUpd d (countryUpd d d))

/-- Destination-country check of the import-eligibility validator. -/
def destCountryWarns (d : Record) : List VWarn :=
  match d.lookup "country_destination" with
  | Option.none => []
  | some v =>
      let c := (pyStr v).trim
      if c ∈ valid_countries then []
      else
        match find_closest_country c with
        | some m => [VWarn.countryCorrected c m]
        | Option.none => [VWarn.unknownDestCountry c]

/-- Destination-country check (rewrite). -/
def destCountryUpd (d vd : Record) : Record :=
  match d.lookup "country_destination" with
  | Option.none => vd
  | some v =>
      let c := (pyStr v).trim
      if c ∈ valid_countries then vd
      else
        match find_closest_country c with
        | some m => vd.set "country_destination" (Value.str m)
        | Option.none => vd

/-- Regulatory-authority check (warnings only). -/
def authorityWarns (d : Record) : List VWarn :=
  match d.lookup "regulatory_authority" with
  | Option.none => []
  | some v =>
      let a := (pyStr v).trim
      if a ∈ regulatory_authorities then [] else [VWarn.unknownAuthority a]

/-- Eligibility-status check (warnings only). -/
def statusWarns (d : Record) : List VWarn :=
  match d.lookup "eligibility_status" with
  | Option.none => []
  | some v =>
      let s := (pyStr v).trim
      if s ∈ ["Eligible", "Not Eligible", "Conditional", "Requires Assessment", "Unknown"] then []
      else [VWarn.unknownEligibilityStatus s]

/-- US 25-year-rule check: an error when the destination is the United
States and `twenty_five_year_rule` is present but not a boolean. -/
def twentyFiveErrs (d : Record) : List VErr :=
  if d.lookup "country_destination" = some (Value.str "United States") then
    match d.lookup "twenty_five_year_rule" with
    | Option.none => []
    | some v =>
        match v with
        | Value.bool _ => []
        | _ => [VErr.twentyFiveYearRuleNotBool]
  else []

/-- `DataValidator.validate_import_eligibility_data`. -/
def validate_import_eligibility_data (d : Record) : ValidationResult :=
  mkResult d
    (requiredErrs ["country_destination", "regulatory_authority"] d ++ twentyFiveErrs d)
    (destCountryWarns d ++ authorityWarns d ++ statusWarns d)
    (destCountryUpd d d)

/-- Timeline duration check (errors); guarded only on key presence. -/
def durationErrs (d : Record) : List VErr :=
  match d.lookup "estimated_duration_days" with
  | Option.none => []
  | some v =>
      match pyInt v with
      | Option.none => [VErr.invalidDurationFormat v]
      | some n => if n < 0 then [VErr.durationNegative] else []

/-- Timeline duration check (warnings): soft ceiling at 730 days. -/
def durationWarns (d : Record) : List VWarn :=
  match d.lookup "estimated_duration_days" with
  | Option.none => []
  | some v =>
      match pyInt v with
      | Option.none => []
      | some n => if n < 0 then [] else if n > 730 then [VWarn.unusuallyLongDuration n] else []

/-- Timeline duration check (rewrite). -/
def durationUpd (d vd : Record) : Record :=
  match d.lookup "estimated_duration_days" with
  | Option.none => vd
  | some v =>
      match pyInt v with
      | Option.none => vd
      | some n => vd.set "estimated_duration_days" (Value.int n)

/-- Timeline process-step check: an error when present but blank. -/
def processStepErrs (d : Record) : List VErr :=
  match d.lookup "process_step" with
  | Option.none => []
  | some v => if (pyStr v).trim == "" then [VErr.emptyProcessStep] else []

/-- `DataValidator.validate_timeline_data`. -/
def validate_timeline_data (d : Record) : ValidationResult :=
  mkResult d
    (requiredErrs ["process_step", "estimated_duration_days"] d ++ durationErrs d ++
      processStepErrs d)
    (durationWarns d)
    (durationUpd d d)

/-- The `validation_methods` dispatch table of
`DataValidator.validate_batch`. -/
def validation_method (cy : Nat) (data_type : String) : Option (Record → ValidationResult) :=
  if data_type = "vehicle" then some (validate_vehicle_data cy)
  else if data_type = "duty_rate" then some validate_duty_rate_data
  else if data_type = "import_eligibility" then some validate_import_eligibility_data
  else if data_type = "timeline_data" then some validate_timeline_data
  else Option.none

/-- The per-record loop of `DataValidator.validate_batch`, over a possibly
raising validation method `vm` (modelling the `try/except` around each
record): a raised exception becomes a synthetic single-error result and
the loop continues with the next record. -/
def validate_records (vm : Record → Except String ValidationResult) (l : List Record) :
    List ValidationResult :=
  l.map (fun r =>
    match vm r with
    | Except.ok res => res
    | Except.error e =>
        { is_valid := false
          errors := [VErr.validationError e]
          warnings := []
          quality_score := 0
          validated_data := r })

/-- `DataValidator.validate_batch`: unknown data types raise `ValueError`
before any record is processed; otherwise each record is validated by the
dispatched method. -/
def validate_batch (cy : Nat) (data_list : List Record) (data_type : String) :
    Except String (List ValidationResult) :=
  match validation_method cy data_type with
  | Option.none => Except.error ("Unknown data type: " ++ data_type)
  | some f => Except.ok (validate_records (fun r => Except.ok (f r)) data_list)

/-- `ProxyManager` state from `src/scrapers/base_scraper.py`: the fixed
route list, the persistent round-robin cursor, and the quarantine set. -/
structure PMState where
  proxies : List String
  current_index : Nat
  failed_proxies : Finset String
deriving DecidableEq

/-- `ProxyManager.get_proxy`: round-robin over the non-quarantined subset;
when that subset is empty the whole quarantine set is cleared and the full
pool is used; only an empty pool yields `none`. -/
def get_proxy (s : PMState) : Option String × PMState :=
  if s.proxies.isEmpty then (Option.none, s)
  else
    let avail0 := s.proxies.filter (fun p => decide (p ∉ s.failed_proxies))
    let cleared := avail0.isEmpty
    let s1 := if cleared then { s with failed_proxies := ∅ } else s
    let avail := if cleared then s.proxies else avail0
    if h : avail.isEmpty then (Option.none, s1)
    else
      (some (avail.get ⟨s1.current_index % avail.length,
         Nat.mod_lt _ (List.length_pos.mpr (fun he => h (by simp [he])))⟩),
       { s1 with current_index := s1.current_index + 1 })

/-- `ProxyManager.mark_failed`: quarantine a route. -/
def mark_failed (s : PMState) (p : String) : PMState :=
  { s with failed_proxies := insert p s.failed_proxies }

/-- Outcome of one HTTP attempt inside `BaseScraper.make_request`: a
response with its status code, or a raised
`requests.exceptions.RequestException`. -/
inductive Outcome where
  | resp (status : Nat) (body : Nat)
  | exn
deriving DecidableEq, Repr

/-- The retryable status codes of `make_request`
(`[429, 503, 502, 504]`). -/
def retryableStatus (c : Nat) : Bool :=
  c == 429 || c == 503 || c == 502 || c == 504

/-- The `for attempt in range(max_retries + 1)` loop of
`BaseScraper.make_request`, with the network modelled as an oracle from
attempt index to `Outcome` and the `ProxyManager` state threaded through
(`RateLimiter.wait`, modelled separately below, only sleeps: it has no
control-flow effect here).  `fuel` is the number of loop iterations left;
the result also carries the number of attempts issued. -/
def fetch_loop (oc : Nat → Outcome) (maxRetries : Nat) :
    Nat → Nat → PMState → Option Nat × (PMState × Nat)
  | 0, attempt, pm => (Option.none, (pm, attempt))
  | fuel + 1, attempt, pm =>
      let pm' := (get_proxy pm).2
      match oc attempt with
      | Outcome.resp code body =>
          if code = 200 then (some body, (pm', attempt + 1))
          else if retryableStatus code then
            if attempt < maxRetries then fetch_loop oc maxRetries fuel (attempt + 1) pm'
            else (Option.none, (pm', attempt + 1))
          else (Option.none, (pm', attempt + 1))
      | Outcome.exn =>
          if attempt < maxRetries then fetch_loop oc maxRetries fuel (attempt + 1) pm'
          else (Option.none, (pm', attempt + 1))

/-- `BaseScraper.make_request`: run the retry loop from attempt 0 with
`max_retries + 1` iterations available. -/
def make_request (oc : Nat → Outcome) (maxRetries : Nat) (pm : PMState) :
    Option Nat × (PMState × Nat) :=
  fetch_loop oc maxRetries (maxRetries + 1) 0 pm

/-- Modelled from the spec: the §4.3 side-effect sentence "each failed
route should be reported to SourcePool.mark_failed" — this marking
variant of the retry loop (absent from the source, whose `make_request`
never calls `mark_failed`) quarantines the route used by every failed
attempt. -/
def fetch_loop_marking (oc : Nat → Outcome) (maxRetries : Nat) :
    Nat → Nat → PMState → Option Nat × (PMState × Nat)
  | 0, attempt, pm => (Option.none, (pm, attempt))
  | fuel + 1, attempt, pm =>
      let pr := get_proxy pm
      let pm' := pr.2
      let failRoute := fun (s : PMState) =>
        match pr.1 with
        | some p => mark_failed s p
        | Option.none => s
      match oc attempt with
      | Outcome.resp code body =>
          if code = 200 then (some body, (pm', attempt + 1))
          else if retryableStatus code then
            if attempt < maxRetries then
              fetch_loop_marking oc maxRetries fuel (attempt + 1) (failRoute pm')
            else (Option.none, (failRoute pm', attempt + 1))
          else (Option.none, (failRoute pm', attempt + 1))
      | Outcome.exn =>
          if attempt < maxRetries then
            fetch_loop_marking oc maxRetries fuel (attempt + 1) (failRoute pm')
          else (Option.none, (failRoute pm', attempt + 1))

/-- Modelled from the spec: `make_request` with per-failure route
reporting, for comparison with the source's `make_request`. -/
def make_request_marking (oc : Nat → Outcome) (maxRetries : Nat) (pm : PMState) :
    Option Nat × (PMState × Nat) :=
  fetch_loop_marking oc maxRetries (maxRetries + 1) 0 pm

/-- `RateLimiter` state from `src/scrapers/base_scraper.py`. -/
structure RLState where
  requests_per_minute : Nat
  last_request_time : ℚ
  request_count : Nat
  window_start : ℚ
deriving DecidableEq

/-- `RateLimiter.__init__`: zero counter, window starting now (`t0`). -/
def RLState.init (rpm : Nat) (t0 : ℚ) : RLState :=
  { requests_per_minute := rpm
    last_request_time := 0
    request_count := 0
    window_start := t0 }

/-- `RateLimiter.wait`, with the three `time.time()` observations passed
explicitly: `now` on entry, `nowAfterGate` after the rate-limit sleep, and
`nowEnd` after the jitter sleep (the uniformly random jitter itself does
not touch the counter state). -/
def RLState.wait (s : RLState) (now nowAfterGate nowEnd : ℚ) : RLState :=
  let s :=
    if now - s.window_start ≥ 60 then
      { s with window_start := now, request_count := 0 }
    else s
  let s :=
    if s.request_count ≥ s.requests_per_minute then
      if 60 - (now - s.window_start) > 0 then
        { s with window_start := nowAfterGate, request_count := 0 }
      else s
    else s
  { s with request_count := s.request_count + 1, last_request_time := nowEnd }

/-- A sequence of sequential `wait()` calls, each with its own observed
times. -/
def RLState.runWaits (s : RLState) (ts : List (ℚ × ℚ × ℚ)) : RLState :=
  ts.foldl (fun s t => s.wait t.1 t.2.1 t.2.2) s

/-- The `self.stats` dictionary of `ImportIQScheduler`. -/
structure SchedulerStats where
  total_runs : Nat
  successful_runs : Nat
  failed_runs : Nat
  total_records_scraped : Nat
  last_run_time : Option String
deriving DecidableEq

/-- The scraper registry keys of `ImportIQScheduler.__init__`. -/
def scrapers : List String :=
  ["import_eligibility", "customs_duty_rates", "government_auctions", "insurance_auctions"]

/-- `ImportIQScheduler._check_consecutive_failures`: reads the configured
`monitoring.max_consecutive_failures` threshold but keeps no failure
history ("Would implement actual failure tracking here") and always
returns `False`. -/
def check_consecutive_failures (max_failures : Nat) (scraper_type : String) : Bool :=
  false

/-- The statistics update on the success path of `_run_scraper_job`. -/
def finishRun (stats : SchedulerStats) (start_time : String) : SchedulerStats :=
  { stats with
      total_runs := stats.total_runs + 1
      successful_runs := stats.successful_runs + 1
      last_run_time := some start_time }

/-- The `try` body of `ImportIQScheduler._run_scraper_job`: unknown
scraper types raise; the Collector's `scrape()` outcome is the
`scrape` oracle; non-empty data goes through `validate_batch` (whose
`ValueError` for unregistered data types also lands here); only valid
records are counted into `total_records_scraped`. -/
def tryRunJob (cy : Nat) (scraper_type : String) (scrape : Except String (List Record))
    (stats : SchedulerStats) (start_time : String) : Except String SchedulerStats :=
  if scrapers.contains scraper_type then
    match scrape with
    | Except.error e => Except.error e
    | Except.ok data =>
        if data.isEmpty then Except.ok (finishRun stats start_time)
        else
          match validate_batch cy data scraper_type with
          | Except.error e => Except.error e
          | Except.ok results =>
              let valid := (results.filter (fun r => r.is_valid)).map
                (fun r => r.validated_data)
              let stats1 :=
                if valid.isEmpty then stats
                else { stats with
                        total_records_scraped := stats.total_records_scraped + valid.length }
              Except.ok (finishRun stats1 start_time)
  else Except.error ("Unknown scraper type: " ++ scraper_type)

/-- `ImportIQScheduler._run_scraper_job`: any exception is caught at the
job boundary, counted as a failed run, and checked for consecutive
failures (the returned `Bool` is whether the critical alert fired). -/
def run_scraper_job (cy : Nat) (max_failures : Nat) (scraper_type : String)
    (scrape : Except String (List Record)) (stats : SchedulerStats) (start_time : String) :
    SchedulerStats × Bool :=
  match tryRunJob cy scraper_type scrape stats start_time with
  | Except.ok s => (s, false)
  | Except.error _ =>
      ({ stats with total_runs := stats.total_runs + 1, failed_runs := stats.failed_runs + 1 },
       check_consecutive_failures max_failures scraper_type)

/-- One scheduler tick over its due jobs (`schedule.run_pending()` inside
`start`'s loop): each due job is executed in order; because every job's
exception is caught inside `_run_scraper_job`, every remaining job is
still evaluated. -/
def run_tick (cy : Nat) (max_failures : Nat)
    (jobs : List (String × Except String (List Record))) (stats : SchedulerStats)
    (start_time : String) : SchedulerStats :=
  jobs.foldl (fun st j => (run_scraper_job cy max_failures j.1 j.2 st start_time).1) stats

/-- Price-check error recogniser (the two messages only the price check
can produce). -/
def VErr.isPriceErr : VErr → Bool
  | VErr.priceNegative => true
  | VErr.invalidPriceFormat _ => true
  | _ => false

/-- Price-check warning recogniser. -/
def VWarn.isPriceWarn : VWarn → Bool
  | VWarn.unusuallyHighPrice _ => true
  | _ => false

/-- VIN-check error recogniser. -/
def VErr.isVinErr : VErr → Bool
  | VErr.invalidVin _ => true
  | _ => false

/-- No price-related error or warning appears in a result. -/
def noPriceEntries (r : ValidationResult) : Bool :=
  r.errors.all (fun e => !VErr.isPriceErr e) && r.warnings.all (fun w => !VWarn.isPriceWarn w)

/-- No VIN-related error appears in a result. -/
def noVinEntries (r : ValidationResult) : Bool :=
  r.errors.all (fun e => !VErr.isVinErr e)

/-- A vehicle record with falsy `price` and `vin` fields, used as a
concrete witness input. -/
def dFalsy : Record :=
  [("make", Value.str "Toyota"), ("model", Value.str "Corolla"),
   ("price", Value.int 0), ("vin", Value.str "")]

/-- A complete vehicle record with no errors and no warnings. -/
def dCar : Record :=
  [("make", Value.str "Toyota"), ("model", Value.str "Corolla")]

/-- A validation method that always raises, as exception oracle. -/
def vmBoom : Record → Except String ValidationResult :=
  fun _ => Except.error "boom"

/-- An attempt oracle whose every attempt raises a transport error. -/
def ocExn : Nat → Outcome := fun _ => Outcome.exn

/-- An attempt oracle that raises a transport error on attempt 0 and then
serves a 200 response. -/
def ocLateOk : Nat → Outcome :=
  fun i => if i = 0 then Outcome.exn else Outcome.resp 200 7

/-- An empty proxy pool. -/
def pm0 : PMState := { proxies := [], current_index := 0, failed_proxies := ∅ }

/-- A one-route pool with a clean quarantine set. -/
def pmOne : PMState := { proxies := ["p1"], current_index := 0, failed_proxies := ∅ }

/-- A three-route pool whose routes are all quarantined (the §8 scenario). -/
def pmAllFailed : PMState :=
  { proxies := ["r1", "r2", "r3"], current_index := 0,
    failed_proxies := {"r1", "r2", "r3"} }

/- ------------------------------------------------------------------ -/
/- Helper lemmas -/
/- ------------------------------------------------------------------ -/

theorem mkResult_of_errors_ne_nil (d : Record) (E : List VErr) (W : List VWarn) (V : Record)
    (h : E ≠ []) :
    (mkResult d E W V).quality_score = 0 ∧ (mkResult d E W V).is_valid = false := by
  cases E with
  | nil => exact absurd rfl h
  | cons a t => simp [mkResult, calculate_quality_score]

theorem filter_truthy_split (d : List (String × Value)) :
    (List.filter (fun kv => truthy kv.2) d).length +
      (List.filter (fun kv => !(truthy kv.2)) d).length = d.length := by
  induction d with
  | nil => rfl
  | cons a t ih =>
      by_cases h : truthy a.2 <;> simp [List.filter_cons, h] <;> omega

theorem quality_no_errors (d : Record) (W : List VWarn) (V : Record) (hd : d ≠ []) :
    (mkResult d [] W V).quality_score =
      max 0 (min 1 ((1 - (W.length : ℚ) * (1 / 10)) *
        (((List.filter (fun kv => truthy kv.2) d).length : ℚ) / (Record.size d : ℚ)))) := by
  have hpos : 0 < Record.size d := by
    cases d with
    | nil => exact absurd rfl hd
    | cons a t => simp [Record.size]
  have hsplit := filter_truthy_split d
  simp only [mkResult, calculate_quality_score, List.isEmpty_nil, Bool.not_true,
    Bool.false_eq_true, if_false, Record.size] at *
  rw [if_pos hpos]
  congr 1
  congr 1
  congr 1
  have hq : ((List.filter (fun kv => truthy kv.2) d).length : ℚ) +
      ((List.filter (fun kv => !(truthy kv.2)) d).length : ℚ) = (d.length : ℚ) := by
    exact_mod_cast hsplit
  have : ((d.length : ℚ) - ((List.filter (fun kv => !(truthy kv.2)) d).length : ℚ)) =
      ((List.filter (fun kv => truthy kv.2) d).length : ℚ) := by
    linarith
  rw [this]

theorem requiredErrs_nil_head {f : String} {fs : List String} {d : Record}
    (h : requiredErrs (f :: fs) d = []) :
    ∃ v, Record.lookup d f = some v ∧ truthy v = true := by
  cases hm : Record.lookup d f with
  | none => simp [requiredErrs, List.filterMap_cons, hm] at h
  | some v =>
      by_cases ht : truthy v
      · exact ⟨v, rfl, ht⟩
      · simp [requiredErrs, List.filterMap_cons, hm, ht] at h

theorem requiredErrsIsNone_nil_head {f : String} {fs : List String} {d : Record}
    (h : requiredErrsIsNone (f :: fs) d = []) :
    ∃ v, Record.lookup d f = some v := by
  cases hm : Record.lookup d f with
  | none => simp [requiredErrsIsNone, List.filterMap_cons, hm] at h
  | some v => exact ⟨v, rfl⟩

theorem lookup_some_ne_nil {d : Record} {f : String} {v : Value}
    (h : Record.lookup d f = some v) : d ≠ [] := by
  intro he
  rw [he] at h
  simp [Record.lookup] at h

/-- An attempt outcome the retry loop treats as retryable: a transport
error, or a non-200 status in the retryable set. -/
def failsRetryablyB : Outcome → Bool
  | Outcome.exn => true
  | Outcome.resp c _ => !(c == 200) && retryableStatus c

theorem isEmpty_false_of_ne_nil {α} {l : List α} (h : l ≠ []) : l.isEmpty = false := by
  cases l with
  | nil => exact absurd rfl h
  | cons a t => rfl

theorem fetch_loop_attempts_le (oc : Nat → Outcome) (mr : Nat) :
    ∀ (fuel attempt : Nat) (pm : PMState),
      (fetch_loop oc mr fuel attempt pm).2.2 ≤ attempt + fuel := by
  intro fuel
  induction fuel with
  | zero => intro attempt pm; simp [fetch_loop]
  | succ n ih =>
      intro attempt pm
      rw [fetch_loop]
      cases h : oc attempt with
      | exn =>
          by_cases ha : attempt < mr
          · simp only [ha, if_true]
            have := ih (attempt + 1) (get_proxy pm).2
            omega
          · simp only [ha, if_false]
            omega
      | resp c b =>
          by_cases h200 : c = 200
          · simp only [h200, if_true]
            omega
          · simp only [h200, if_false]
            by_cases hr : retryableStatus c
            · simp only [hr, if_true]
              by_cases ha : attempt < mr
              · simp only [ha, if_true]
                have := ih (attempt + 1) (get_proxy pm).2
                omega
              · simp only [ha, if_false]
                omega
            · simp only [hr, Bool.false_eq_true, if_false]
              omega

theorem fetch_loop_exhausts (oc : Nat → Outcome) (mr : Nat) :
    ∀ (fuel attempt : Nat) (pm : PMState),
      attempt + fuel = mr + 1 →
      (∀ i, attempt ≤ i → i ≤ mr → failsRetryablyB (oc i) = true) →
      (fetch_loop oc mr fuel attempt pm).1 = Option.none ∧
        (fetch_loop oc mr fuel attempt pm).2.2 = mr + 1 := by
  intro fuel
  induction fuel with
  | zero =>
      intro attempt pm hsum hall
      refine ⟨rfl, ?_⟩
      simp [fetch_loop]
      omega
  | succ n ih =>
      intro attempt pm hsum hall
      have hale : attempt ≤ mr := by omega
      have hfail := hall attempt le_rfl hale
      rw [fetch_loop]
      cases h : oc attempt with
      | exn =>
          dsimp only
          by_cases ha : attempt < mr
          · rw [if_pos ha]
            exact ih (attempt + 1) (get_proxy pm).2 (by omega)
              (fun i h1 h2 => hall i (by omega) h2)
          · rw [if_neg ha]
            exact ⟨rfl, by show attempt + 1 = mr + 1; omega⟩
      | resp c b =>
          dsimp only
          rw [h] at hfail
          simp [failsRetryablyB] at hfail
          obtain ⟨h200, hr⟩ := hfail
          rw [if_neg h200, if_pos hr]
          by_cases ha : attempt < mr
          · rw [if_pos ha]
            exact ih (attempt + 1) (get_proxy pm).2 (by omega)
              (fun i h1 h2 => hall i (by omega) h2)
          · rw [if_neg ha]
            exact ⟨rfl, by show attempt + 1 = mr + 1; omega⟩

theorem fetch_loop_success (oc : Nat → Outcome) (mr : Nat) :
    ∀ (fuel attempt : Nat) (pm : PMState) (i b : Nat),
      attempt + fuel = mr + 1 → attempt ≤ i → i ≤ mr →
      (∀ j, attempt ≤ j → j < i → failsRetryablyB (oc j) = true) →
      oc i = Outcome.resp 200 b →
      (fetch_loop oc mr fuel attempt pm).1 = some b ∧
        (fetch_loop oc mr fuel attempt pm).2.2 = i + 1 := by
  intro fuel
  induction fuel with
  | zero =>
      intro attempt pm i b hsum hai him hall hoc
      omega
  | succ n ih =>
      intro attempt pm i b hsum hai him hall hoc
      rw [fetch_loop]
      by_cases hei : attempt = i
      · subst hei
        rw [hoc]
        dsimp only
        rw [if_pos rfl]
        exact ⟨rfl, rfl⟩
      · have hlt : attempt < i := by omega
        have hfail := hall attempt le_rfl hlt
        have ha : attempt < mr := by omega
        cases h : oc attempt with
        | exn =>
            dsimp only
            rw [if_pos ha]
            exact ih (attempt + 1) (get_proxy pm).2 i b (by omega) (by omega) him
              (fun j h1 h2 => hall j (by omega) h2) hoc
        | resp c' b' =>
            dsimp only
            rw [h] at hfail
            simp [failsRetryablyB] at hfail
            obtain ⟨h200', hr'⟩ := hfail
            rw [if_neg h200', if_pos hr', if_pos ha]
            exact ih (attempt + 1) (get_proxy pm).2 i b (by omega) (by omega) him
              (fun j h1 h2 => hall j (by omega) h2) hoc

theorem fetch_loop_fatal (oc : Nat → Outcome) (mr : Nat) :
    ∀ (fuel attempt : Nat) (pm : PMState) (i c b : Nat),
      attempt + fuel = mr + 1 → attempt ≤ i → i ≤ mr →
      (∀ j, attempt ≤ j → j < i → failsRetryablyB (oc j) = true) →
      oc i = Outcome.resp c b → c ≠ 200 → retryableStatus c = false →
      (fetch_loop oc mr fuel attempt pm).1 = Option.none ∧
        (fetch_loop oc mr fuel attempt pm).2.2 = i + 1 := by
  intro fuel
  induction fuel with
  | zero =>
      intro attempt pm i c b hsum hai him hall hoc h200 hr
      omega
  | succ n ih =>
      intro attempt pm i c b hsum hai him hall hoc h200 hr
      rw [fetch_loop]
      by_cases hei : attempt = i
      · subst hei
        rw [hoc]
        dsimp only
        rw [if_neg h200]
        rw [if_neg (show ¬(retryableStatus c = true) from by simp [hr])]
        exact ⟨rfl, rfl⟩
      · have hlt : attempt < i := by omega
        have hfail := hall attempt le_rfl hlt
        have ha : attempt < mr := by omega
        cases h : oc attempt with
        | exn =>
            dsimp only
            rw [if_pos ha]
            exact ih (attempt + 1) (get_proxy pm).2 i c b (by omega) (by omega) him
              (fun j h1 h2 => hall j (by omega) h2) hoc h200 hr
        | resp c' b' =>
            dsimp only
            rw [h] at hfail
            simp [failsRetryablyB] at hfail
            obtain ⟨h200', hr'⟩ := hfail
            rw [if_neg h200', if_pos hr', if_pos ha]
            exact ih (attempt + 1) (get_proxy pm).2 i c b (by omega) (by omega) him
              (fun j h1 h2 => hall j (by omega) h2) hoc h200 hr

/- ------------------------------------------------------------------ -/
/- C1 -/
/- ------------------------------------------------------------------ -/

/-- C1: for every record of any of the four registered record types, a
`ValidationResult` with at least one error entry has `quality_score = 0`
and `is_valid = false`; the same holds for the synthetic result produced
by `validate_batch` when validating a record raises. -/
theorem C1_errors_force_invalid_zero :
    (∀ (cy : Nat) (dt : String) (f : Record → ValidationResult) (d : Record),
        validation_method cy dt = some f → (f d).errors ≠ [] →
        (f d).quality_score = 0 ∧ (f d).is_valid = false)
    ∧ (∀ (vm : Record → Except String ValidationResult) (l : List Record)
        (i : Nat) (rec : Record) (e : String),
        l.get? i = some rec → vm rec = Except.error e →
        ∃ r, (validate_records vm l).get? i = some r ∧
          r.errors ≠ [] ∧ r.quality_score = 0 ∧ r.is_valid = false) := by
  constructor
  · intro cy dt f d hdt herr
    unfold validation_method at hdt
    split_ifs at hdt <;> injection hdt with hf <;> subst hf <;>
      exact mkResult_of_errors_ne_nil _ _ _ _ herr
  · intro vm l i rec e hrec hvm
    refine ⟨{ is_valid := false, errors := [VErr.validationError e], warnings := [],
              quality_score := 0, validated_data := rec }, ?_, by simp, rfl, rfl⟩
    rw [validate_records, List.get?_map, hrec, Option.map_some', hvm]

/-- Witness for C1 at the empty vehicle record (which has two
missing-required-field errors). -/
theorem C1_witness :
    (validate_vehicle_data 2025 ([] : Record)).quality_score = 0 ∧
    (validate_vehicle_data 2025 ([] : Record)).is_valid = false :=
  C1_errors_force_invalid_zero.1 2025 "vehicle" (validate_vehicle_data 2025) []
    rfl (by decide)

/- ------------------------------------------------------------------ -/
/- C2 -/
/- ------------------------------------------------------------------ -/

/-- C2: `validate_batch` yields exactly one result per input record, in
input order, for every registered data type; the per-record loop survives
a raising validation method by substituting a synthetic single-error
result with empty warnings, score 0 and `is_valid = false`, and keeps
processing the remaining records. -/
theorem C2_batch_contract :
    (∀ (vm : Record → Except String ValidationResult) (l : List Record),
        (validate_records vm l).length = l.length)
    ∧ (∀ (vm : Record → Except String ValidationResult) (l : List Record)
        (i : Nat) (rec : Record) (e : String), l.get? i = some rec →
        vm rec = Except.error e →
        (validate_records vm l).get? i =
          some { is_valid := false, errors := [VErr.validationError e], warnings := [],
                 quality_score := 0, validated_data := rec })
    ∧ (∀ (cy : Nat) (l : List Record) (dt : String) (f : Record → ValidationResult),
        validation_method cy dt = some f →
        validate_batch cy l dt = Except.ok (l.map f)) := by
  refine ⟨?_, ?_, ?_⟩
  · intro vm l
    simp [validate_records]
  · intro vm l i rec e hrec hvm
    rw [validate_records, List.get?_map, hrec]
    simp [hvm]
  · intro cy l dt f hdt
    rw [validate_batch, hdt]
    simp [validate_records]

/-- Witness for C2: a singleton batch whose only record raises. -/
theorem C2_witness :
    (validate_records vmBoom [([] : Record)]).get? 0 =
      some { is_valid := false, errors := [VErr.validationError "boom"], warnings := [],
             quality_score := 0, validated_data := ([] : Record) } :=
  C2_batch_contract.2.1 vmBoom [[]] 0 [] "boom" rfl rfl

/- ------------------------------------------------------------------ -/
/- C3 -/
/- ------------------------------------------------------------------ -/

/-- C3: with no errors, the quality score is
`clamp ((1 - 0.1 * warnings) * (non-empty values / total keys))`, the
completeness ratio ranging over all keys of the input record; with errors
it is exactly 0. -/
theorem C3_quality_score_formula :
    ∀ (cy : Nat) (dt : String) (f : Record → ValidationResult) (d : Record),
      validation_method cy dt = some f →
      ((f d).errors = [] →
        (f d).quality_score =
          max 0 (min 1 ((1 - (((f d).warnings.length : ℚ)) * (1 / 10)) *
            (((List.filter (fun kv => truthy kv.2) d).length : ℚ) / (Record.size d : ℚ)))))
      ∧ ((f d).errors ≠ [] → (f d).quality_score = 0) := by
  intro cy dt f d hdt
  constructor
  · intro hE
    unfold validation_method at hdt
    split_ifs at hdt <;> injection hdt with hf <;> subst hf
    · have h1 : requiredErrs ["make", "model"] d = [] := by
        rcases List.append_eq_nil.mp hE with ⟨h', _⟩
        rcases List.append_eq_nil.mp h' with ⟨h'', _⟩
        exact (List.append_eq_nil.mp h'').1
      obtain ⟨v, hv, _⟩ := requiredErrs_nil_head h1
      rw [validate_vehicle_data] at hE ⊢
      rw [show (mkResult d (requiredErrs ["make", "model"] d ++ yearErrs cy d ++ vinErrs d ++
        priceErrs d) (makeWarns d ++ modelWarns d ++ yearWarns cy d ++ priceWarns d)
        (priceUpd d (vinUpd d (yearUpd d (makeUpd d d))))).errors = requiredErrs ["make", "model"] d ++
        yearErrs cy d ++ vinErrs d ++ priceErrs d from rfl] at hE
      rw [hE]
      exact quality_no_errors d _ _ (lookup_some_ne_nil hv)
    · have h1 : requiredErrsIsNone ["country", "duty_rate_percent"] d = [] := by
        rcases List.append_eq_nil.mp hE with ⟨h', _⟩
        exact (List.append_eq_nil.mp h').1
      obtain ⟨v, hv⟩ := requiredErrsIsNone_nil_head h1
      rw [validate_duty_rate_data] at hE ⊢
      rw [show (mkResult d (requiredErrsIsNone ["country", "duty_rate_percent"] d ++
        dutyRateErrs d ++ dateErrs d) (countryWarns d ++ dutyRateWarns d ++ htsWarns d ++
        categoryWarns d) (dutyRateUpd d (countryUpd d d))).errors =
        requiredErrsIsNone ["country", "duty_rate_percent"] d ++ dutyRateErrs d ++ dateErrs d
        from rfl] at hE
      rw [hE]
      exact quality_no_errors d _ _ (lookup_some_ne_nil hv)
    · have h1 : requiredErrs ["country_destination", "regulatory_authority"] d = [] := by
        exact (List.append_eq_nil.mp hE).1
      obtain ⟨v, hv, _⟩ := requiredErrs_nil_head h1
      rw [validate_import_eligibility_data] at hE ⊢
      rw [show (mkResult d (requiredErrs ["country_destination", "regulatory_authority"] d ++
        twentyFiveErrs d) (destCountryWarns d ++ authorityWarns d ++ statusWarns d)
        (destCountryUpd d d)).errors =
        requiredErrs ["country_destination", "regulatory_authority"] d ++ twentyFiveErrs d
        from rfl] at hE
      rw [hE]
      exact quality_no_errors d _ _ (lookup_some_ne_nil hv)
    · have h1 : requiredErrs ["process_step", "estimated_duration_days"] d = [] := by
        rcases List.append_eq_nil.mp hE with ⟨h', _⟩
        exact (List.append_eq_nil.mp h').1
      obtain ⟨v, hv, _⟩ := requiredErrs_nil_head h1
      rw [validate_timeline_data] at hE ⊢
      rw [show (mkResult d (requiredErrs ["process_step", "estimated_duration_days"] d ++
        durationErrs d ++ processStepErrs d) (durationWarns d) (durationUpd d d)).errors =
        requiredErrs ["process_step", "estimated_duration_days"] d ++ durationErrs d ++
        processStepErrs d from rfl] at hE
      rw [hE]
      exact quality_no_errors d _ _ (lookup_some_ne_nil hv)
  · intro hE
    unfold validation_method at hdt
    split_ifs at hdt <;> injection hdt with hf <;> subst hf <;>
      exact (mkResult_of_errors_ne_nil _ _ _ _ hE).1

/-- Witness for C3 at a complete two-field vehicle record with no errors
and no warnings. -/
theorem C3_witness :
    (validate_vehicle_data 2025 dCar).quality_score =
      max 0 (min 1 ((1 - (((validate_vehicle_data 2025 dCar).warnings.length : ℚ)) * (1 / 10)) *
        (((List.filter (fun kv => truthy kv.2) dCar).length : ℚ) / (Record.size dCar : ℚ)))) :=
  (C3_quality_score_formula 2025 "vehicle" (validate_vehicle_data 2025) dCar rfl).1 (by decide)

/- ------------------------------------------------------------------ -/
/- C4 -/
/- ------------------------------------------------------------------ -/

/-- C4: `make_request` issues at most `max_retries + 1` attempts; an
attempt answered with HTTP 200 — whether the first attempt or any later
attempt reached after retryable failures — returns that response
immediately, with no further attempts (exactly `i + 1` attempts issued
when attempt `i` succeeds); a non-200, non-retryable status returns
`none` immediately with no further attempt; and when every attempt fails
retryably (retryable status or transport error) all `max_retries + 1`
attempts are used and the result is `none`. -/
theorem C4_make_request_policy :
    ∀ (oc : Nat → Outcome) (mr : Nat) (pm : PMState),
      ((make_request oc mr pm).2.2 ≤ mr + 1)
      ∧ (∀ b, oc 0 = Outcome.resp 200 b →
          make_request oc mr pm = (some b, ((get_proxy pm).2, 1)))
      ∧ (∀ i b, i ≤ mr → (∀ j, j < i → failsRetryablyB (oc j) = true) →
          oc i = Outcome.resp 200 b →
          (make_request oc mr pm).1 = some b ∧ (make_request oc mr pm).2.2 = i + 1)
      ∧ ((∀ i, i ≤ mr → failsRetryablyB (oc i) = true) →
          (make_request oc mr pm).1 = Option.none ∧ (make_request oc mr pm).2.2 = mr + 1)
      ∧ (∀ i c b, i ≤ mr → (∀ j, j < i → failsRetryablyB (oc j) = true) →
          oc i = Outcome.resp c b → c ≠ 200 → retryableStatus c = false →
          (make_request oc mr pm).1 = Option.none ∧ (make_request oc mr pm).2.2 = i + 1) := by
  intro oc mr pm
  refine ⟨?_, ?_, ?_, ?_, ?_⟩
  · have := fetch_loop_attempts_le oc mr (mr + 1) 0 pm
    simpa [make_request] using this
  · intro b h200
    rw [make_request, fetch_loop, h200]
    dsimp only
    rw [if_pos rfl]
  · intro i b him hall hoc
    exact fetch_loop_success oc mr (mr + 1) 0 pm i b (by omega) (Nat.zero_le i) him
      (fun j h1 h2 => hall j h2) hoc
  · intro hall
    exact fetch_loop_exhausts oc mr (mr + 1) 0 pm (by omega)
      (fun i h1 h2 => hall i h2)
  · intro i c b him hall hoc h200 hr
    exact fetch_loop_fatal oc mr (mr + 1) 0 pm i c b (by omega) (Nat.zero_le i) him
      (fun j h1 h2 => hall j h2) hoc h200 hr

/-- Witness for C4: with `max_retries = 1`, a transport error on attempt
0 followed by a 200 on attempt 1 returns that response after exactly two
attempts; and when every attempt is a transport error, both attempts are
used and the fetch returns `none`. -/
theorem C4_witness :
    ((make_request ocLateOk 1 pm0).1 = some 7 ∧ (make_request ocLateOk 1 pm0).2.2 = 1 + 1)
    ∧ ((make_request ocExn 1 pm0).1 = Option.none ∧ (make_request ocExn 1 pm0).2.2 = 1 + 1) :=
  ⟨(C4_make_request_policy ocLateOk 1 pm0).2.2.1 1 7 (by decide)
      (fun j hj => by
        have hj0 : j = 0 := by omega
        subst hj0
        rfl)
      rfl,
   (C4_make_request_policy ocExn 1 pm0).2.2.2.1 (fun i _ => rfl)⟩

/- ------------------------------------------------------------------ -/
/- C5 -/
/- ------------------------------------------------------------------ -/

theorem get_proxy_failed_subset (s : PMState) :
    (get_proxy s).2.failed_proxies ⊆ s.failed_proxies := by
  rw [get_proxy]
  by_cases hp : s.proxies.isEmpty
  · rw [if_pos hp]
  · rw [if_neg hp]
    by_cases hc : (s.proxies.filter (fun p => decide (p ∉ s.failed_proxies))).isEmpty
    · simp only [hc, if_true]
      split
      · exact fun x hx => by simp at hx
      · exact fun x hx => by simp at hx
    · simp only [hc, Bool.false_eq_true, if_false]
      split
      · exact fun x hx => hx
      · exact fun x hx => hx

theorem fetch_loop_failed_subset (oc : Nat → Outcome) (mr : Nat) :
    ∀ (fuel attempt : Nat) (pm : PMState),
      (fetch_loop oc mr fuel attempt pm).2.1.failed_proxies ⊆ pm.failed_proxies := by
  intro fuel
  induction fuel with
  | zero => intro attempt pm; exact fun x hx => hx
  | succ n ih =>
      intro attempt pm
      have hsub := get_proxy_failed_subset pm
      rw [fetch_loop]
      cases h : oc attempt with
      | exn =>
          dsimp only
          by_cases ha : attempt < mr
          · rw [if_pos ha]
            exact fun x hx => hsub (ih (attempt + 1) (get_proxy pm).2 hx)
          · rw [if_neg ha]
            exact hsub
      | resp c b =>
          dsimp only
          by_cases h200 : c = 200
          · rw [if_pos h200]
            exact hsub
          · rw [if_neg h200]
            by_cases hr : retryableStatus c = true
            · rw [if_pos hr]
              by_cases ha : attempt < mr
              · rw [if_pos ha]
                exact fun x hx => hsub (ih (attempt + 1) (get_proxy pm).2 hx)
              · rw [if_neg ha]
                exact hsub
            · rw [if_neg hr]
              exact hsub

/-- C5 counterexample: a one-route pool whose single attempt fails with a
transport error.  The spec-modelled marking loop quarantines the route
`"p1"` it used; the source's `make_request` leaves the quarantine set
empty, so the failed route was never reported to `mark_failed`. -/
theorem C5_counterexample :
    (make_request ocExn 0 pmOne).2.1.failed_proxies = ∅ ∧
      (make_request_marking ocExn 0 pmOne).2.1.failed_proxies = {"p1"} := by
  constructor <;> rfl

/-- C5 (amended): `make_request` never reports any route to
`SourcePool.mark_failed` — across the whole retry loop the quarantine set
never grows (it can only shrink, via the clear-on-exhaustion inside
`get_route`), so failing routes are not quarantined by the fetch path. -/
theorem C5_no_route_reporting :
    ∀ (oc : Nat → Outcome) (mr : Nat) (pm : PMState),
      (make_request oc mr pm).2.1.failed_proxies ⊆ pm.failed_proxies :=
  fun oc mr pm => fetch_loop_failed_subset oc mr (mr + 1) 0 pm

/- ------------------------------------------------------------------ -/
/- C6 -/
/- ------------------------------------------------------------------ -/

/-- C6: with a non-empty route pool `get_route` never returns `none`;
when every route is quarantined the call clears the quarantine set and
returns a route of the full original pool; only an empty pool yields
`none`. -/
theorem C6_get_route_self_healing :
    ∀ s : PMState,
      (s.proxies = [] → (get_proxy s).1 = Option.none)
      ∧ (s.proxies ≠ [] → ∃ p, (get_proxy s).1 = some p)
      ∧ (s.proxies ≠ [] → (∀ q ∈ s.proxies, q ∈ s.failed_proxies) →
          (get_proxy s).2.failed_proxies = ∅ ∧
            ∃ p, (get_proxy s).1 = some p ∧ p ∈ s.proxies) := by
  intro s
  refine ⟨?_, ?_, ?_⟩
  · intro he
    simp [get_proxy, he]
  · intro hne
    rw [get_proxy, if_neg (by simp [isEmpty_false_of_ne_nil hne])]
    by_cases hc : (s.proxies.filter (fun p => decide (p ∉ s.failed_proxies))).isEmpty
    · simp only [hc, if_true]
      rw [dif_neg (by simp [isEmpty_false_of_ne_nil hne])]
      exact ⟨_, rfl⟩
    · simp only [hc, Bool.false_eq_true, if_false]
      rw [dif_neg (by simp [hc])]
      exact ⟨_, rfl⟩
  · intro hne hall
    have h0 : s.proxies.filter (fun p => decide (p ∉ s.failed_proxies)) = [] := by
      rw [List.filter_eq_nil]
      intro a ha
      simp [hall a ha]
    rw [get_proxy, if_neg (by simp [isEmpty_false_of_ne_nil hne])]
    simp only [h0, List.isEmpty_nil, if_true]
    rw [dif_neg (by simp [isEmpty_false_of_ne_nil hne])]
    refine ⟨rfl, _, rfl, ?_⟩
    have hsub : (if (List.filter (fun p => decide (p ∉ s.failed_proxies)) s.proxies).isEmpty =
        true then s.proxies
        else List.filter (fun p => decide (p ∉ s.failed_proxies)) s.proxies) ⊆ s.proxies := by
      split
      · exact fun x hx => hx
      · exact fun x hx => List.mem_of_mem_filter hx
    exact hsub (List.get_mem _ _ _)

/-- Witness for C6: the §8 scenario — three routes, all marked failed;
the next `get_route()` clears the quarantine and returns a pool route. -/
theorem C6_witness :
    (get_proxy pmAllFailed).2.failed_proxies = ∅ ∧
      ∃ p, (get_proxy pmAllFailed).1 = some p ∧ p ∈ pmAllFailed.proxies :=
  (C6_get_route_self_healing pmAllFailed).2.2 (by decide) (by decide)

/- ------------------------------------------------------------------ -/
/- C7 / C8 -/
/- ------------------------------------------------------------------ -/

theorem tryRunJob_scrape_error (cy : Nat) (st : String) (e : String)
    (stats : SchedulerStats) (now : String) :
    ∃ e', tryRunJob cy st (Except.error e) stats now = Except.error e' := by
  unfold tryRunJob
  by_cases h : scrapers.contains st
  · rw [if_pos h]
    exact ⟨e, rfl⟩
  · rw [if_neg h]
    exact ⟨_, rfl⟩

theorem tryRunJob_ok_total (cy : Nat) (st : String) (sc : Except String (List Record))
    (stats : SchedulerStats) (now : String) (s : SchedulerStats)
    (h : tryRunJob cy st sc stats now = Except.ok s) :
    s.total_runs = stats.total_runs + 1 := by
  unfold tryRunJob at h
  by_cases hc : scrapers.contains st
  · rw [if_pos hc] at h
    cases sc with
    | error e => cases h
    | ok data =>
        dsimp only at h
        by_cases hd : data.isEmpty
        · rw [if_pos hd] at h
          injection h with h
          subst h
          rfl
        · rw [if_neg hd] at h
          cases hv : validate_batch cy data st with
          | error e => rw [hv] at h; cases h
          | ok results =>
              rw [hv] at h
              dsimp only at h
              injection h with h
              subst h
              rw [finishRun]
              split <;> rfl
  · rw [if_neg hc] at h
    cases h

theorem run_job_total_runs (cy mf : Nat) (st : String) (sc : Except String (List Record))
    (stats : SchedulerStats) (now : String) :
    ((run_scraper_job cy mf st sc stats now).1).total_runs = stats.total_runs + 1 := by
  rw [run_scraper_job]
  cases h : tryRunJob cy st sc stats now with
  | ok s => exact tryRunJob_ok_total cy st sc stats now s h
  | error e => rfl

/-- C7: a job whose Collector raises is caught at the scheduler boundary —
`total_runs` and `failed_runs` each increment by exactly 1 with nothing
else changed — and a tick still evaluates every due job: after a tick over
any job list (whatever mix of failures it contains) `total_runs` has grown
by exactly the number of jobs. -/
theorem C7_job_exception_handling :
    (∀ (cy mf : Nat) (st e : String) (stats : SchedulerStats) (now : String),
        (run_scraper_job cy mf st (Except.error e) stats now).1 =
          { stats with total_runs := stats.total_runs + 1,
                       failed_runs := stats.failed_runs + 1 })
    ∧ (∀ (cy mf : Nat) (jobs : List (String × Except String (List Record)))
        (stats : SchedulerStats) (now : String),
        (run_tick cy mf jobs stats now).total_runs = stats.total_runs + jobs.length) := by
  constructor
  · intro cy mf st e stats now
    obtain ⟨e', he⟩ := tryRunJob_scrape_error cy st e stats now
    rw [run_scraper_job, he]
  · intro cy mf jobs
    induction jobs with
    | nil => intro stats now; rfl
    | cons j t ih =>
        intro stats now
        rw [run_tick, List.foldl_cons]
        have h1 := run_job_total_runs cy mf j.1 j.2 stats now
        have h2 := ih ((run_scraper_job cy mf j.1 j.2 stats now).1) now
        rw [run_tick] at h2
        rw [h2, h1, List.length_cons]
        omega

/-- C8: the code keeps no per-job consecutive-failure counter —
`_check_consecutive_failures` ignores all history and returns `False` —
so the critical alert of `_run_scraper_job` can never fire, for any run,
failed or not. -/
theorem C8_alert_never_fires :
    ∀ (cy mf : Nat) (st : String) (sc : Except String (List Record))
      (stats : SchedulerStats) (now : String),
      (run_scraper_job cy mf st sc stats now).2 = false := by
  intro cy mf st sc stats now
  rw [run_scraper_job]
  cases h : tryRunJob cy st sc stats now <;> rfl

/- ------------------------------------------------------------------ -/
/- C9 -/
/- ------------------------------------------------------------------ -/

theorem wait_count_le (s : RLState) (now a b : ℚ) (h1 : 1 ≤ s.requests_per_minute)
    (h2 : s.request_count ≤ s.requests_per_minute) :
    (s.wait now a b).request_count ≤ s.requests_per_minute := by
  rw [RLState.wait]
  by_cases hroll : now - s.window_start ≥ 60
  · rw [if_pos hroll]
    dsimp only
    by_cases hcount : (0 : Nat) ≥ s.requests_per_minute
    · rw [if_pos hcount]
      have hgate : (60 : ℚ) - (now - now) > 0 := by norm_num
      rw [if_pos hgate]
      exact h1
    · rw [if_neg hcount]
      dsimp only
      omega
  · rw [if_neg hroll]
    by_cases hcount : s.request_count ≥ s.requests_per_minute
    · rw [if_pos hcount]
      have hgate : (60 : ℚ) - (now - s.window_start) > 0 := by
        push_neg at hroll
        linarith
      rw [if_pos hgate]
      exact h1
    · rw [if_neg hcount]
      dsimp only
      omega

theorem wait_rpm_const (s : RLState) (now a b : ℚ) :
    (s.wait now a b).requests_per_minute = s.requests_per_minute := by
  rw [RLState.wait]
  split <;> split <;> first
    | rfl
    | (split <;> rfl)

theorem runWaits_count_le (rpm : Nat) (h1 : 1 ≤ rpm) :
    ∀ (ts : List (ℚ × ℚ × ℚ)) (s : RLState), s.requests_per_minute = rpm →
      s.request_count ≤ rpm →
      ((s.runWaits ts).request_count ≤ rpm ∧ (s.runWaits ts).requests_per_minute = rpm) := by
  intro ts
  induction ts with
  | nil => intro s hr hc; exact ⟨hc, hr⟩
  | cons t ts ih =>
      intro s hr hc
      rw [RLState.runWaits, List.foldl_cons]
      have hw : (s.wait t.1 t.2.1 t.2.2).request_count ≤ rpm := by
        rw [← hr]
        exact wait_count_le s t.1 t.2.1 t.2.2 (hr ▸ h1) (hr ▸ hc)
      have hwr : (s.wait t.1 t.2.1 t.2.2).requests_per_minute = rpm := by
        rw [wait_rpm_const, hr]
      exact ih (s.wait t.1 t.2.1 t.2.2) hwr hw

/-- C9 counterexample to the claim as stated: with
`requests_per_minute = 0` a single `wait()` call leaves
`request_count = 1 > 0`, so the internal counter does exceed the
configured limit. -/
theorem C9_counterexample :
    ¬(((RLState.init 0 0).wait 0 1 2).request_count ≤
        (RLState.init 0 0).requests_per_minute) := by
  decide

/-- C9 (amended): provided `requests_per_minute ≥ 1`, a single `wait()`
preserves `request_count ≤ requests_per_minute`, and any sequence of
sequential `wait()` calls from a fresh limiter keeps the counter within
the limit, whatever times are observed. -/
theorem C9_request_count_bounded :
    (∀ (s : RLState) (now a b : ℚ), 1 ≤ s.requests_per_minute →
        s.request_count ≤ s.requests_per_minute →
        (s.wait now a b).request_count ≤ s.requests_per_minute)
    ∧ (∀ (rpm : Nat) (t0 : ℚ) (ts : List (ℚ × ℚ × ℚ)), 1 ≤ rpm →
        ((RLState.init rpm t0).runWaits ts).request_count ≤ rpm) := by
  constructor
  · exact wait_count_le
  · intro rpm t0 ts h1
    exact (runWaits_count_le rpm h1 ts (RLState.init rpm t0) rfl (Nat.zero_le _)).1

/-- Witness for C9 (amended) at `requests_per_minute = 1` over three
calls. -/
theorem C9_witness :
    ((RLState.init 1 0).runWaits [(0, 0, 0), (0, 0, 0), (61, 61, 61)]).request_count ≤ 1 :=
  C9_request_count_bounded.2 1 0 [(0, 0, 0), (0, 0, 0), (61, 61, 61)] (by decide)

/- ------------------------------------------------------------------ -/
/- C10 -/
/- ------------------------------------------------------------------ -/

theorem requiredErrs_shape {fs : List String} {d : Record} {e : VErr}
    (h : e ∈ requiredErrs fs d) : ∃ f, e = VErr.missingField f := by
  rw [requiredErrs] at h
  obtain ⟨f, _, hef⟩ := List.mem_filterMap.mp h
  cases hm : Record.lookup d f with
  | none =>
      rw [hm] at hef
      injection hef with he
      exact ⟨f, he.symm⟩
  | some v =>
      rw [hm] at hef
      dsimp only at hef
      by_cases ht : truthy v
      · rw [if_pos ht] at hef
        cases hef
      · rw [if_neg ht] at hef
        injection hef with he
        exact ⟨f, he.symm⟩

theorem yearErrs_shape {cy : Nat} {d : Record} {e : VErr} (h : e ∈ yearErrs cy d) :
    (∃ y, e = VErr.invalidYear y) ∨ (∃ y, e = VErr.invalidYearFormat y) := by
  rw [yearErrs] at h
  cases hm : Record.lookup d "year" with
  | none => rw [hm] at h; cases h
  | some y =>
      rw [hm] at h
      dsimp only at h
      by_cases ht : truthy y
      · rw [if_pos ht] at h
        cases hp : pyInt y with
        | none =>
            rw [hp] at h
            simp at h
            exact Or.inr ⟨y, h⟩
        | some n =>
            rw [hp] at h
            dsimp only at h
            by_cases hr : n < 1900 ∨ n > (cy : Int) + 2
            · rw [if_pos hr] at h
              simp at h
              exact Or.inl ⟨y, h⟩
            · rw [if_neg hr] at h
              cases h
      · rw [if_neg ht] at h
        cases h

theorem vinErrs_shape {d : Record} {e : VErr} (h : e ∈ vinErrs d) :
    ∃ s, e = VErr.invalidVin s := by
  rw [vinErrs] at h
  cases hm : Record.lookup d "vin" with
  | none => rw [hm] at h; cases h
  | some v =>
      rw [hm] at h
      dsimp only at h
      by_cases ht : truthy v
      · rw [if_pos ht] at h
        by_cases hv : validate_vin (((pyStr v).toUpper).trim)
        · rw [if_pos hv] at h
          cases h
        · rw [if_neg hv] at h
          simp at h
          exact ⟨_, h⟩
      · rw [if_neg ht] at h
        cases h

theorem priceErrs_falsy {d : Record} {v : Value} (hv : Record.lookup d "price" = some v)
    (ht : truthy v = false) : priceErrs d = [] := by
  rw [priceErrs, hv]
  dsimp only
  rw [if_neg (by simp [ht])]

theorem priceWarns_falsy {d : Record} {v : Value} (hv : Record.lookup d "price" = some v)
    (ht : truthy v = false) : priceWarns d = [] := by
  rw [priceWarns, hv]
  dsimp only
  rw [if_neg (by simp [ht])]

theorem vinErrs_falsy {d : Record} {v : Value} (hv : Record.lookup d "vin" = some v)
    (ht : truthy v = false) : vinErrs d = [] := by
  rw [vinErrs, hv]
  dsimp only
  rw [if_neg (by simp [ht])]

theorem makeWarns_shape {d : Record} {w : VWarn} (h : w ∈ makeWarns d) :
    VWarn.isPriceWarn w = false := by
  rw [makeWarns] at h
  cases hm : Record.lookup d "make" with
  | none => rw [hm] at h; cases h
  | some v =>
      rw [hm] at h
      dsimp only at h
      by_cases hin : ((pyStr v).trim) ∈ valid_makes
      · rw [if_pos hin] at h
        cases h
      · rw [if_neg hin] at h
        cases hc : find_closest_make ((pyStr v).trim) with
        | none => rw [hc] at h; simp at h; subst h; rfl
        | some c => rw [hc] at h; simp at h; subst h; rfl

theorem modelWarns_shape {d : Record} {w : VWarn} (h : w ∈ modelWarns d) :
    VWarn.isPriceWarn w = false := by
  rw [modelWarns] at h
  cases hm : Record.lookup d "model" with
  | none => rw [hm] at h; cases h
  | some v =>
      rw [hm] at h
      dsimp only at h
      split at h
      · simp at h
        subst h
        rfl
      · cases h

theorem yearWarns_shape {cy : Nat} {d : Record} {w : VWarn} (h : w ∈ yearWarns cy d) :
    VWarn.isPriceWarn w = false := by
  rw [yearWarns] at h
  cases hm : Record.lookup d "year" with
  | none => rw [hm] at h; cases h
  | some y =>
      rw [hm] at h
      dsimp only at h
      by_cases ht : truthy y
      · rw [if_pos ht] at h
        cases hp : pyInt y with
        | none => rw [hp] at h; cases h
        | some n =>
            rw [hp] at h
            dsimp only at h
            by_cases hr : n < 1900 ∨ n > (cy : Int) + 2
            · rw [if_pos hr] at h
              cases h
            · rw [if_neg hr] at h
              by_cases ho : n < 1980
              · rw [if_pos ho] at h
                simp at h
                subst h
                rfl
              · rw [if_neg ho] at h
                cases h
      · rw [if_neg ht] at h
        cases h

/-- C10: a vehicle record whose `price` key is present but falsy
(`0`, `""`, `None`, …) goes through the price check untouched — no
price-related error and no price-related warning can appear in the
result; the same falsy guard skips the VIN check, so a present-but-empty
`vin` yields no VIN error. -/
theorem C10_falsy_guard_skips_checks :
    ∀ (cy : Nat) (d : Record),
      (∀ v, Record.lookup d "price" = some v → truthy v = false →
        (∀ e ∈ (validate_vehicle_data cy d).errors, VErr.isPriceErr e = false) ∧
        (∀ w ∈ (validate_vehicle_data cy d).warnings, VWarn.isPriceWarn w = false))
      ∧ (∀ v, Record.lookup d "vin" = some v → truthy v = false →
        ∀ e ∈ (validate_vehicle_data cy d).errors, VErr.isVinErr e = false) := by
  intro cy d
  have herr : (validate_vehicle_data cy d).errors =
      requiredErrs ["make", "model"] d ++ yearErrs cy d ++ vinErrs d ++ priceErrs d := rfl
  have hwarn : (validate_vehicle_data cy d).warnings =
      makeWarns d ++ modelWarns d ++ yearWarns cy d ++ priceWarns d := rfl
  constructor
  · intro v hv ht
    constructor
    · intro e he
      rw [herr, priceErrs_falsy hv ht, List.append_nil] at he
      rcases List.mem_append.mp he with he' | hvin
      · rcases List.mem_append.mp he' with hreq | hyear
        · obtain ⟨f, rfl⟩ := requiredErrs_shape hreq
          rfl
        · rcases yearErrs_shape hyear with ⟨y, rfl⟩ | ⟨y, rfl⟩ <;> rfl
      · obtain ⟨s, rfl⟩ := vinErrs_shape hvin
        rfl
    · intro w hw
      rw [hwarn, priceWarns_falsy hv ht, List.append_nil] at hw
      rcases List.mem_append.mp hw with hw' | hyear
      · rcases List.mem_append.mp hw' with hmake | hmodel
        · exact makeWarns_shape hmake
        · exact modelWarns_shape hmodel
      · exact yearWarns_shape hyear
  · intro v hv ht e he
    rw [herr, vinErrs_falsy hv ht, List.append_nil] at he
    rcases List.mem_append.mp he with he' | hprice
    · rcases List.mem_append.mp he' with hreq | hyear
      · obtain ⟨f, rfl⟩ := requiredErrs_shape hreq
        rfl
      · rcases yearErrs_shape hyear with ⟨y, rfl⟩ | ⟨y, rfl⟩ <;> rfl
    · rw [priceErrs] at hprice
      cases hm : Record.lookup d "price" with
      | none => rw [hm] at hprice; cases hprice
      | some pv =>
          rw [hm] at hprice
          dsimp only at hprice
          by_cases htp : truthy pv
          · rw [if_pos htp] at hprice
            cases hp : pyFloat pv with
            | none =>
                rw [hp] at hprice
                simp at hprice
                subst hprice
                rfl
            | some p =>
                rw [hp] at hprice
                dsimp only at hprice
                by_cases hn : p < 0
                · rw [if_pos hn] at hprice
                  simp at hprice
                  subst hprice
                  rfl
                · rw [if_neg hn] at hprice
                  cases hprice
          · rw [if_neg htp] at hprice
            cases hprice

/-- Witness for C10 at a record with `price = 0` and `vin = ""`. -/
theorem C10_witness :
    noPriceEntries (validate_vehicle_data 2025 dFalsy) = true ∧
      noVinEntries (validate_vehicle_data 2025 dFalsy) = true := by
  have h := C10_falsy_guard_skips_checks 2025 dFalsy
  have hp := h.1 (Value.int 0) (by decide) rfl
  have hv := h.2 (Value.str "") (by decide) rfl
  constructor
  · rw [noPriceEntries]
    rw [Bool.and_eq_true]
    constructor
    · rw [List.all_eq_true]
      intro e he
      rw [hp.1 e he]
      rfl
    · rw [List.all_eq_true]
      intro w hw
      rw [hp.2 w hw]
      rfl
  · rw [noVinEntries]
    rw [List.all_eq_true]
    intro e he
    rw [hv e he]
    rfl

end ImportIQ







